import Mathlib

/-!
# Subscription lifecycle of hand-backend

A shallow embedding of `services/subscription_service.go`,
`services/payment_services.go`, `models/subscription.go` and the
`PremiumOnly` check of `middleware/subscription.go`.

* The relational table behind `gorm.DB` is a list of `Subscription` rows.
  The primary key on `id` and the unique index on `order_id` are enforced by
  `DB.Create`; a query `Where(..).Order(..).First(..)` returns the matching
  row that sorts first, ties being broken by ascending primary key as the
  ORM's `First` does.
* The wall clock (`time.Now()`) is an explicit argument `now` of every
  operation; one operation reads one instant.
* The identifier the database generates for a new row is an explicit
  argument of the checkout operation.
* Functions of libraries outside the repository (`uuid.Parse`,
  `UUID.String`, `strings.ToLower`, `Time.AddDate`, `Time.Unix`) are the
  fields of a `Lib` record; the Midtrans call `snap.CreateTransaction` is a
  field of `PaymentService`. The general theorems hold for every such
  record; the examples run on the concrete record `utcLib`.
* The columns `updated_at` (maintained by the ORM on each write) and the
  `User` association are never read or assigned by the service and are not
  part of a row here.
-/

namespace HandBackend

/-! ## Data model (`models/subscription.go`) -/

/-- A 128-bit identifier, ordered as the database orders `uuid` values. -/
abbrev UUID := Nat

/-- An instant of the wall clock. -/
abbrev Time := Nat

/-- The type `SubscriptionPlan` with its two constants. -/
inductive SubscriptionPlan where
  | free
  | premium
deriving DecidableEq, Repr

/-- The type `SubscriptionStatus` with its four constants. -/
inductive SubscriptionStatus where
  | pending
  | active
  | expired
  | canceled
deriving DecidableEq, Repr

/-- One row of the `subscriptions` table. -/
structure Subscription where
  ID : UUID
  UserID : UUID
  Plan : SubscriptionPlan
  Status : SubscriptionStatus
  OrderID : String
  Price : Int
  PaymentToken : String
  PaymentRedirectURL : String
  StartsAt : Option Time
  ExpiresAt : Option Time
  CreatedAt : Time
deriving DecidableEq, Repr

/-! ## Library functions used by the service -/

/-- Functions of the Go standard library and of `google/uuid` that the service
calls. `uuidParse` is `uuid.Parse` (`none` when it returns an error),
`uuidString` is `UUID.String`, `toLower` is `strings.ToLower`, `addDate` is
`Time.AddDate` and `unix` is `Time.Unix`. -/
structure Lib where
  uuidParse : String → Option UUID
  uuidString : UUID → String
  toLower : String → String
  addDate : Time → Int → Int → Int → Time
  unix : Time → Int

/-! ## Payment service (`services/payment_services.go`) -/

/-- The fields of `snap.Request` that `CreatePaymentWithCallback` fills. -/
structure SnapRequest where
  OrderID : String
  GrossAmt : Int
  ExpiryUnit : String
  ExpiryDuration : Int
  Finish : String
deriving DecidableEq, Repr

/-- The fields of `snap.Response` that the service reads. -/
structure SnapResponse where
  Token : String
  RedirectURL : String
deriving DecidableEq, Repr

/-- The payment service; `CreateTransaction` is the gateway call
`snap.CreateTransaction`, an error being reported by its message. -/
structure PaymentService where
  CreateTransaction : SnapRequest → Except String SnapResponse

/-- The request `CreatePaymentWithCallback` builds: an empty finish URL is
replaced by the appointment-history page, the payment expires after five
minutes. -/
def PaymentService.requestFor (orderID : String) (grossAmount : Int) (finishURL : String) :
    SnapRequest :=
  let finishURL :=
    if finishURL = "" then "https://hand.tbn1.site/appointment-history" else finishURL
  { OrderID := orderID, GrossAmt := grossAmount, ExpiryUnit := "minute",
    ExpiryDuration := 5, Finish := finishURL }

/-- Method `PaymentService.CreatePaymentWithCallback`: the request is handed to the
gateway and its answer returned. -/
def PaymentService.CreatePaymentWithCallback (service : PaymentService)
    (orderID : String) (grossAmount : Int) (finishURL : String) :
    Except String SnapResponse :=
  service.CreateTransaction (PaymentService.requestFor orderID grossAmount finishURL)

/-! ## Record store -/

/-- The errors the service returns. The comment of each constructor is the
message of the Go error. -/
inductive Error where
  /-- Message `invalid user id`. -/
  | invalidUserID
  /-- Message `payment service not configured`. -/
  | paymentNotConfigured
  /-- Message `premium plan already active until <expiry, RFC 3339>`. -/
  | alreadyActive (expiry : Time)
  /-- Message `subscription not found for order: <order id>`. -/
  | notFound (orderID : String)
  /-- Message `unsupported transaction status: <status as received>`. -/
  | unsupportedStatus (status : String)
  /-- An error of the store: a violated uniqueness constraint. -/
  | database (msg : String)
  /-- An error returned by the payment gateway. -/
  | gateway (msg : String)
deriving DecidableEq, Repr

deriving instance DecidableEq for Except

/-- The `subscriptions` table. -/
abbrev DB := List Subscription

/-- The row of a list that sorts first under `before`; among rows none of
which sorts before the other, the earliest of the list. -/
def pickFirst (before : Subscription → Subscription → Bool) :
    List Subscription → Option Subscription
  | [] => none
  | r :: rs =>
    match pickFirst before rs with
    | none => some r
    | some b => if before b r then some b else some r

/-- The query `Where(cond).Order(before).First(..)`; `none` is
`gorm.ErrRecordNotFound`. -/
def DB.First (db : DB) (cond : Subscription → Bool)
    (before : Subscription → Subscription → Bool) : Option Subscription :=
  pickFirst before (db.filter cond)

/-- The call `DB.Create`: the store assigns the identifier `newID` and the creation
time `now`; the insert is refused when the primary key or the unique
`order_id` is already taken. Returns the stored row and the new table. -/
def DB.Create (db : DB) (newID : UUID) (now : Time) (sub : Subscription) :
    Except Error (Subscription × DB) :=
  let row : Subscription := { sub with ID := newID, CreatedAt := now }
  if db.any (fun r => decide (r.ID = row.ID) || decide (r.OrderID = row.OrderID)) then
    .error (.database "duplicate key value violates unique constraint")
  else
    .ok (row, db ++ [row])

/-- The call `DB.Save` of a row that was read from the table: every column of the
row with that primary key is overwritten. -/
def DB.Save (db : DB) (sub : Subscription) : DB :=
  db.map (fun r => if r.ID = sub.ID then sub else r)

/-- Ordering `ORDER BY id`. -/
def byID (a b : Subscription) : Bool :=
  decide (a.ID < b.ID)

/-- Ordering `ORDER BY created_at desc, id`. -/
def byCreatedAtDesc (a b : Subscription) : Bool :=
  decide (b.CreatedAt < a.CreatedAt) ||
    (decide (a.CreatedAt = b.CreatedAt) && decide (a.ID < b.ID))

/-- Ordering `ORDER BY expires_at desc, id` on rows whose `expires_at` is
not null (a null is read as instant 0). -/
def byExpiresAtDesc (a b : Subscription) : Bool :=
  decide (b.ExpiresAt.getD 0 < a.ExpiresAt.getD 0) ||
    (decide (a.ExpiresAt.getD 0 = b.ExpiresAt.getD 0) && decide (a.ID < b.ID))

/-! ## Subscription service (`services/subscription_service.go`) -/

/-- Constant `premiumMonthlyPrice`. -/
def premiumMonthlyPrice : Int := 20000

/-- Constant `freeChatLimitPerDay`. -/
def freeChatLimitPerDay : Int := 30

/-- The struct `SubscriptionStatusView`. -/
structure SubscriptionStatusView where
  Plan : SubscriptionPlan
  Status : SubscriptionStatus
  Price : Int
  OrderID : String
  PaymentToken : String
  PaymentRedirectURL : String
  StartsAt : Option Time
  ExpiresAt : Option Time
  ChatLimitPerDay : Option Int
deriving DecidableEq, Repr

/-- The struct `CheckoutResponse`. -/
structure CheckoutResponse where
  OrderID : String
  SubscriptionID : String
  Token : String
  RedirectURL : String
deriving DecidableEq, Repr

/-- The struct `SubscriptionService` without its database handle, which is
threaded through the operations; `none` is a nil `PaymentService`. -/
structure SubscriptionService where
  PaymentService : Option PaymentService

/-- Function `priceForPlan`. -/
def priceForPlan (plan : SubscriptionPlan) (storedPrice : Int) : Int :=
  if plan = .premium then
    if storedPrice > 0 then storedPrice else premiumMonthlyPrice
  else 0

/-- The call `strings.ReplaceAll(s, "-", "")`. -/
def stripDashes (s : String) : String :=
  String.mk (s.data.filter (fun c => c != '-'))

/-- Function `generateSubscriptionOrderID`: `sub-<unix seconds>-<id without dashes>`. -/
def generateSubscriptionOrderID (lib : Lib) (now : Time) (userID : UUID) : String :=
  let stripped := stripDashes (lib.uuidString userID)
  let timestamp := lib.unix now
  "sub-" ++ toString timestamp ++ "-" ++ stripped

/-- The condition `expires_at IS NOT NULL AND expires_at <= now`. -/
def expiresAtOrBefore (now : Time) (r : Subscription) : Bool :=
  match r.ExpiresAt with
  | some e => decide (e ≤ now)
  | none => false

/-- The condition `expires_at IS NOT NULL AND expires_at > now`. -/
def expiresAfter (now : Time) (r : Subscription) : Bool :=
  match r.ExpiresAt with
  | some e => decide (now < e)
  | none => false

/-- Method `expireIfNeeded`: one conditional update of the column `status`. -/
def expireIfNeeded (now : Time) (userID : UUID) (db : DB) : DB :=
  db.map (fun r =>
    if r.UserID = userID ∧ r.Status = .active ∧ expiresAtOrBefore now r = true then
      { r with Status := .expired }
    else r)

/-- Method `getActiveSubscription`. -/
def getActiveSubscription (now : Time) (userID : UUID) (db : DB) : Option Subscription :=
  db.First
    (fun r => decide (r.UserID = userID) && decide (r.Status = .active) && expiresAfter now r)
    byExpiresAtDesc

/-- Method `getLatestSubscription`. -/
def getLatestSubscription (userID : UUID) (db : DB) : Option Subscription :=
  db.First (fun r => decide (r.UserID = userID)) byCreatedAtDesc

/-- Method `findLatestSubscriptionByStatus`. -/
def findLatestSubscriptionByStatus (userID : UUID) (status : SubscriptionStatus) (db : DB) :
    Option Subscription :=
  db.First (fun r => decide (r.UserID = userID) && decide (r.Status = status)) byCreatedAtDesc

/-- The tail of `GetSubscriptionForUser`, from the test `sub == nil` on: the
view of the latest row, or the free plan when there is none. -/
def statusViewOf (sub : Option Subscription) : SubscriptionStatusView :=
  match sub with
  | none =>
    { Plan := .free, Status := .active, Price := 0, OrderID := "", PaymentToken := "",
      PaymentRedirectURL := "", StartsAt := none, ExpiresAt := none,
      ChatLimitPerDay := some freeChatLimitPerDay }
  | some sub =>
    let effectivePlan :=
      if sub.Plan = .premium ∧ sub.Status ≠ .active then SubscriptionPlan.free else sub.Plan
    let chatLimit : Option Int :=
      if effectivePlan = .free then some freeChatLimitPerDay else none
    { Plan := effectivePlan, Status := sub.Status,
      Price := priceForPlan effectivePlan sub.Price, OrderID := sub.OrderID,
      PaymentToken := sub.PaymentToken, PaymentRedirectURL := sub.PaymentRedirectURL,
      StartsAt := sub.StartsAt, ExpiresAt := sub.ExpiresAt, ChatLimitPerDay := chatLimit }

/-- Method `GetSubscriptionForUser`: the result and the table it leaves. -/
def GetSubscriptionForUser (lib : Lib) (now : Time) (userID : String) (db : DB) :
    Except Error SubscriptionStatusView × DB :=
  match lib.uuidParse userID with
  | none => (.error .invalidUserID, db)
  | some userUUID =>
    let db := expireIfNeeded now userUUID db
    let sub := getLatestSubscription userUUID db
    (.ok (statusViewOf sub), db)

/-- What a checkout call leaves behind: its result, the table, and the
requests it sent to the payment gateway. -/
structure CheckoutOutcome where
  result : Except Error CheckoutResponse
  db : DB
  calls : List SnapRequest
deriving DecidableEq

/-- Method `CreatePremiumCheckout`. -/
def CreatePremiumCheckout (lib : Lib) (s : SubscriptionService) (now : Time) (newID : UUID)
    (userID : String) (db : DB) : CheckoutOutcome :=
  match s.PaymentService with
  | none => { result := .error .paymentNotConfigured, db := db, calls := [] }
  | some paymentService =>
    match lib.uuidParse userID with
    | none => { result := .error .invalidUserID, db := db, calls := [] }
    | some userUUID =>
      let active := getActiveSubscription now userUUID db
      match active.filter (fun a => decide (a.Plan = .premium)) with
      | some a =>
        { result := .error (.alreadyActive (a.ExpiresAt.getD 0)), db := db, calls := [] }
      | none =>
        let pending := findLatestSubscriptionByStatus userUUID .pending db
        match pending.filter (fun p => p.OrderID != "" && p.PaymentToken != "") with
        | some p =>
          { result := .ok { OrderID := p.OrderID, SubscriptionID := lib.uuidString p.ID,
                            Token := p.PaymentToken, RedirectURL := p.PaymentRedirectURL },
            db := db, calls := [] }
        | none =>
          let orderID := generateSubscriptionOrderID lib now userUUID
          let subscription : Subscription :=
            { ID := 0, UserID := userUUID, Plan := .premium, Status := .pending,
              OrderID := orderID, Price := premiumMonthlyPrice, PaymentToken := "",
              PaymentRedirectURL := "", StartsAt := none, ExpiresAt := none, CreatedAt := 0 }
          match db.Create newID now subscription with
          | .error e => { result := .error e, db := db, calls := [] }
          | .ok (subscription, db) =>
            let req := PaymentService.requestFor orderID premiumMonthlyPrice
              "https://hand.tbn1.site/subscription"
            match paymentService.CreatePaymentWithCallback orderID premiumMonthlyPrice
                "https://hand.tbn1.site/subscription" with
            | .error msg => { result := .error (.gateway msg), db := db, calls := [req] }
            | .ok paymentResp =>
              let subscription :=
                { subscription with PaymentToken := paymentResp.Token,
                                    PaymentRedirectURL := paymentResp.RedirectURL }
              let db := db.Save subscription
              { result := .ok { OrderID := orderID,
                                SubscriptionID := lib.uuidString subscription.ID,
                                Token := subscription.PaymentToken,
                                RedirectURL := subscription.PaymentRedirectURL },
                db := db, calls := [req] }

/-- Method `HandlePaymentNotification`: the result and the table it leaves. -/
def HandlePaymentNotification (lib : Lib) (now : Time) (orderID transactionStatus : String)
    (db : DB) : Except Error Unit × DB :=
  match db.First (fun r => decide (r.OrderID = orderID)) byID with
  | none => (.error (.notFound orderID), db)
  | some subscription =>
    let lowerStatus := lib.toLower transactionStatus
    if lowerStatus = "capture" ∨ lowerStatus = "settlement" ∨ lowerStatus = "success" then
      let start := now
      let expires := lib.addDate now 0 1 0
      let subscription :=
        { subscription with Status := .active, StartsAt := some start,
                            ExpiresAt := some expires, Plan := .premium }
      (.ok (), db.Save subscription)
    else if lowerStatus = "pending" ∨ lowerStatus = "challenge" then
      let subscription := { subscription with Status := .pending }
      (.ok (), db.Save subscription)
    else if lowerStatus = "deny" ∨ lowerStatus = "cancel" ∨ lowerStatus = "expire" ∨
        lowerStatus = "failure" then
      let subscription := { subscription with Status := .canceled }
      (.ok (), db.Save subscription)
    else
      (.error (.unsupportedStatus transactionStatus), db)

/-! ## The premium gate (`middleware/subscription.go`) -/

/-- The test of `PremiumOnly` on the identified caller: `true` when the
request is passed on (`c.Next()`), `false` when it is answered 403. -/
def PremiumOnly (lib : Lib) (now : Time) (userID : String) (db : DB) : Bool :=
  match (GetSubscriptionForUser lib now userID db).1 with
  | .error _ => false
  | .ok subscription =>
    decide (subscription.Plan = .premium) && decide (subscription.Status = .active)

/-! ## Store constraints -/

/-- The constraints the database keeps on the table: the primary key and
the `order_id` index admit no two rows with the same value. -/
def DB.WF (db : DB) : Prop :=
  db.Pairwise (fun a b => a.ID ≠ b.ID ∧ a.OrderID ≠ b.OrderID)

instance (db : DB) : Decidable db.WF :=
  inferInstanceAs
    (Decidable (List.Pairwise (fun a b : Subscription => a.ID ≠ b.ID ∧ a.OrderID ≠ b.OrderID) db))

/-- The tables the service can produce: starting from the empty table, any
sequence of status queries, checkouts and notifications made at
non-decreasing instants, with any arguments, any payment service and any
identifier assigned by the store. The instant is that of the last call. -/
inductive Reachable (lib : Lib) : Time → DB → Prop where
  | empty : Reachable lib 0 []
  | status {t : Time} {db : DB} (now : Time) (userID : String) :
      Reachable lib t db → t ≤ now →
      Reachable lib now (GetSubscriptionForUser lib now userID db).2
  | checkout {t : Time} {db : DB} (s : SubscriptionService) (now : Time) (newID : UUID)
      (userID : String) :
      Reachable lib t db → t ≤ now →
      Reachable lib now (CreatePremiumCheckout lib s now newID userID db).db
  | notification {t : Time} {db : DB} (now : Time) (orderID transactionStatus : String) :
      Reachable lib t db → t ≤ now →
      Reachable lib now (HandlePaymentNotification lib now orderID transactionStatus db).2

/-! ## A concrete library

An instance of `Lib` on which the operations can be run: identifiers in
their canonical 36-character spelling, ASCII lower-casing, and a clock that
counts seconds since 1970-01-01T00:00:00Z and reads dates in UTC. On such
inputs its functions return what the Go functions return. -/

/-- The value of a hexadecimal digit. -/
def hexValue (c : Char) : Option Nat :=
  if '0' ≤ c ∧ c ≤ '9' then some (c.toNat - '0'.toNat)
  else if 'a' ≤ c ∧ c ≤ 'f' then some (c.toNat - 'a'.toNat + 10)
  else if 'A' ≤ c ∧ c ≤ 'F' then some (c.toNat - 'A'.toNat + 10)
  else none

/-- The number written by a list of hexadecimal digits, most significant
first, continuing from `acc`. -/
def hexNumber : List Char → Nat → Option Nat
  | [], acc => some acc
  | c :: cs, acc =>
    match hexValue c with
    | some v => hexNumber cs (16 * acc + v)
    | none => none

/-- Reads `xxxxxxxx-xxxx-xxxx-xxxx-xxxxxxxxxxxx`; every other spelling is
rejected. -/
def parseCanonical (s : String) : Option UUID :=
  let cs := s.data
  if cs.length = 36 ∧ cs.get? 8 = some '-' ∧ cs.get? 13 = some '-' ∧ cs.get? 18 = some '-' ∧
      cs.get? 23 = some '-' then
    hexNumber (cs.take 8 ++ (cs.drop 9).take 4 ++ (cs.drop 14).take 4 ++ (cs.drop 19).take 4
      ++ (cs.drop 24).take 12) 0
  else none

/-- The last `k` hexadecimal digits of `n`, lower case. -/
def hexDigits : Nat → Nat → List Char
  | 0, _ => []
  | k + 1, n => hexDigits k (n / 16) ++ [Nat.digitChar (n % 16)]

/-- Writes an identifier as `xxxxxxxx-xxxx-xxxx-xxxx-xxxxxxxxxxxx`. -/
def canonicalString (u : UUID) : String :=
  let d := hexDigits 32 u
  String.mk (d.take 8 ++ ['-'] ++ (d.drop 8).take 4 ++ ['-'] ++ (d.drop 12).take 4 ++ ['-']
    ++ (d.drop 16).take 4 ++ ['-'] ++ d.drop 20)

/-- Days from 1970-01-01 to the given day of the proleptic Gregorian
calendar; a day number beyond the end of the month runs into the next. -/
def daysFromCivil (y m d : Int) : Int :=
  let y := if m ≤ 2 then y - 1 else y
  let era := y / 400
  let yoe := y - era * 400
  let mp := if m > 2 then m - 3 else m + 9
  let doy := (153 * mp + 2) / 5 + d - 1
  let doe := yoe * 365 + yoe / 4 - yoe / 100 + doy
  era * 146097 + doe - 719468

/-- Year, month and day of the given number of days since 1970-01-01. -/
def civilFromDays (z : Int) : Int × Int × Int :=
  let z := z + 719468
  let era := z / 146097
  let doe := z - era * 146097
  let yoe := (doe - doe / 1460 + doe / 36524 - doe / 146096) / 365
  let y := yoe + era * 400
  let doy := doe - (365 * yoe + yoe / 4 - yoe / 100)
  let mp := (5 * doy + 2) / 153
  let d := doy - (153 * mp + 2) / 5 + 1
  let m := if mp < 10 then mp + 3 else mp - 9
  (if m ≤ 2 then y + 1 else y, m, d)

/-- The method `Time.AddDate` in UTC on a clock of whole seconds: the date is moved,
the time of day kept, and an overflowing month or day is normalised. -/
def addDateUTC (t : Time) (years months days : Int) : Time :=
  let secs : Int := t
  let (y, m, d) := civilFromDays (secs / 86400)
  let mm := (m - 1) + months
  let y := y + years + mm / 12
  let m := mm % 12 + 1
  ((daysFromCivil y m 1 + (d - 1) + days) * 86400 + secs % 86400).toNat

/-- The concrete library. -/
def utcLib : Lib where
  uuidParse := parseCanonical
  uuidString := canonicalString
  toLower := fun s => String.mk (s.data.map Char.toLower)
  addDate := addDateUTC
  unix := fun t => (t : Int)

/-! ## Example data -/

/-- The user id of the examples; it parses to the identifier 10. -/
def userA : String := "00000000-0000-0000-0000-00000000000a"

/-- The order id of a checkout of `userA` at 2024-01-01T00:00:00Z. -/
def orderA : String := "sub-1704067200-0000000000000000000000000000000a"

/-- A payment service whose gateway answers every request with the given
token and redirect URL. -/
def fixedGateway (token url : String) : PaymentService :=
  { CreateTransaction := fun _ => .ok { Token := token, RedirectURL := url } }

/-- The row a checkout of `userA` at 2024-01-01T00:00:00Z leaves. -/
def pendingRow : Subscription :=
  { ID := 1, UserID := 10, Plan := .premium, Status := .pending, OrderID := orderA,
    Price := 20000, PaymentToken := "tok1", PaymentRedirectURL := "https://pay/1",
    StartsAt := none, ExpiresAt := none, CreatedAt := 1704067200 }

/-- The row `pendingRow` after a denied payment. -/
def canceledRow : Subscription :=
  { pendingRow with Status := .canceled }

/-- The row `pendingRow` paid at 2024-01-01T00:01:00Z. -/
def activeRow : Subscription :=
  { pendingRow with Status := .active, StartsAt := some 1704067260,
                    ExpiresAt := some 1706745660 }

/-- The table after a checkout of `userA` at 00:00:00 and the settlement of
its order at 00:01:00 (2024-01-01, UTC); it holds `activeRow`. -/
def paidStore : DB :=
  (HandlePaymentNotification utcLib 1704067260 orderA "settlement"
    (CreatePremiumCheckout utcLib
      { PaymentService := some (fixedGateway "tok1" "https://pay/1") }
      1704067200 1 userA []).db).2

/-- An active row of `userA` on the free plan that expires after `activeRow`. -/
def freeRow : Subscription :=
  { ID := 2, UserID := 10, Plan := .free, Status := .active, OrderID := "grant-1", Price := 0,
    PaymentToken := "", PaymentRedirectURL := "", StartsAt := some 1704067200,
    ExpiresAt := some 1735689600, CreatedAt := 1704067100 }

/-- The table after this history of `userA`, starting from the empty table:
checkout at 00:00:00, payment denied at 00:01:00, second checkout at
00:02:00, payment of the first order settled at 00:03:00 (all on
2024-01-01, UTC). -/
def deniedThenSettled : DB :=
  let s : SubscriptionService := { PaymentService := some (fixedGateway "tok1" "https://pay/1") }
  let db1 := (CreatePremiumCheckout utcLib s 1704067200 1 userA []).db
  let db2 := (HandlePaymentNotification utcLib 1704067260 orderA "deny" db1).2
  let db3 := (CreatePremiumCheckout utcLib s 1704067320 2 userA db2).db
  (HandlePaymentNotification utcLib 1704067380 orderA "settlement" db3).2

/-- The table after this history of `userA`, starting from the empty table:
checkout at 00:00:00 that the gateway answers with an error, second
checkout at 00:02:00 that it answers with a token, settlement of the first
order notified at 00:03:00 (all on 2024-01-01, UTC). -/
def failedThenSettled : DB :=
  let failing : SubscriptionService :=
    { PaymentService := some { CreateTransaction := fun _ => .error "timeout" } }
  let s : SubscriptionService := { PaymentService := some (fixedGateway "tok1" "https://pay/1") }
  let db1 := (CreatePremiumCheckout utcLib failing 1704067200 1 userA []).db
  let db2 := (CreatePremiumCheckout utcLib s 1704067320 2 userA db1).db
  (HandlePaymentNotification utcLib 1704067380 orderA "settlement" db2).2

/-! ## Lemmas on queries -/

theorem pickFirst_mem (before : Subscription → Subscription → Bool) :
    ∀ (l : List Subscription) (r : Subscription), pickFirst before l = some r → r ∈ l := by
  intro l
  induction l with
  | nil => intro r h; simp [pickFirst] at h
  | cons x xs ih =>
    intro r h
    unfold pickFirst at h
    cases hp : pickFirst before xs with
    | none =>
      rw [hp] at h
      simp only [Option.some.injEq] at h
      simp [h]
    | some b =>
      rw [hp] at h
      simp only at h
      split at h
      · simp only [Option.some.injEq] at h
        subst h
        exact List.mem_cons_of_mem _ (ih b hp)
      · simp only [Option.some.injEq] at h
        simp [h]

theorem pickFirst_eq_none (before : Subscription → Subscription → Bool)
    (l : List Subscription) : pickFirst before l = none ↔ l = [] := by
  cases l with
  | nil => simp [pickFirst]
  | cons x xs =>
    unfold pickFirst
    cases pickFirst before xs with
    | none => simp
    | some b =>
      simp only [reduceCtorEq, iff_false]
      split <;> simp

theorem pickFirst_singleton (before : Subscription → Subscription → Bool) (r : Subscription) :
    pickFirst before [r] = some r := by
  simp [pickFirst]

theorem DB.First_some {db : DB} {cond : Subscription → Bool}
    {before : Subscription → Subscription → Bool} {r : Subscription}
    (h : db.First cond before = some r) : r ∈ db ∧ cond r = true := by
  have := pickFirst_mem before _ r h
  simpa [List.mem_filter] using this

theorem DB.First_eq_none {db : DB} {cond : Subscription → Bool}
    {before : Subscription → Subscription → Bool} :
    db.First cond before = none ↔ ∀ r ∈ db, cond r = false := by
  unfold DB.First
  rw [pickFirst_eq_none, List.filter_eq_nil_iff]
  simp

theorem DB.WF.eq_of_ID {db : DB} (hwf : db.WF) {a b : Subscription} (ha : a ∈ db)
    (hb : b ∈ db) (h : a.ID = b.ID) : a = b := by
  by_contra hne
  have hsym : Symmetric (fun a b : Subscription => a.ID ≠ b.ID ∧ a.OrderID ≠ b.OrderID) :=
    fun x y hxy => ⟨fun e => hxy.1 e.symm, fun e => hxy.2 e.symm⟩
  exact (List.Pairwise.forall hsym hwf ha hb hne).1 h

theorem DB.WF.eq_of_OrderID {db : DB} (hwf : db.WF) {a b : Subscription} (ha : a ∈ db)
    (hb : b ∈ db) (h : a.OrderID = b.OrderID) : a = b := by
  by_contra hne
  have hsym : Symmetric (fun a b : Subscription => a.ID ≠ b.ID ∧ a.OrderID ≠ b.OrderID) :=
    fun x y hxy => ⟨fun e => hxy.1 e.symm, fun e => hxy.2 e.symm⟩
  exact (List.Pairwise.forall hsym hwf ha hb hne).2 h

/-- A row that sorts strictly before every other row of a list is the one
picked, for an ordering in which no two rows sort before each other. -/
theorem pickFirst_of_first (before : Subscription → Subscription → Bool)
    (hanti : ∀ a b, before a b = true → before b a = false) (r : Subscription) :
    ∀ (l : List Subscription), r ∈ l → (∀ x ∈ l, x ≠ r → before r x = true) →
      pickFirst before l = some r := by
  intro l
  induction l with
  | nil => intro h; simp at h
  | cons y ys ih =>
    intro hr hall
    unfold pickFirst
    by_cases hy : y = r
    · subst hy
      cases hp : pickFirst before ys with
      | none => rfl
      | some b =>
        simp only
        by_cases hb : b = y
        · subst hb; simp
        · have h1 := hall b (List.mem_cons_of_mem _ (pickFirst_mem before ys b hp)) hb
          rw [hanti _ _ h1]
          simp
    · have hr' : r ∈ ys := by
        rcases List.mem_cons.mp hr with h | h
        · exact absurd h.symm hy
        · exact h
      rw [ih hr' (fun x hx hne => hall x (List.mem_cons_of_mem _ hx) hne)]
      simp only
      rw [hall y (List.mem_cons_self _ _) hy]
      simp

/-- The row `getLatestSubscription` returns is the most recently created
row of the user: a row of the user such that every other row of the user
was created earlier, or at the same instant with a larger identifier. -/
theorem getLatestSubscription_of_latest (u : UUID) (db : DB) (r : Subscription)
    (hr : r ∈ db) (hu : r.UserID = u)
    (hall : ∀ x ∈ db, x.UserID = u → x ≠ r →
      x.CreatedAt < r.CreatedAt ∨ (x.CreatedAt = r.CreatedAt ∧ r.ID < x.ID)) :
    getLatestSubscription u db = some r := by
  unfold getLatestSubscription DB.First
  apply pickFirst_of_first
  · intro a b hab
    simp only [byCreatedAtDesc, Bool.or_eq_true, decide_eq_true_eq, Bool.and_eq_true] at hab
    simp only [byCreatedAtDesc, Bool.or_eq_false_iff, decide_eq_false_iff_not,
      Bool.and_eq_false_imp, decide_eq_true_eq]
    rcases hab with h | ⟨h1, h2⟩
    · exact ⟨Nat.lt_asymm h, fun e => absurd (e ▸ h) (Nat.lt_irrefl _)⟩
    · exact ⟨fun e => absurd (h1 ▸ e) (Nat.lt_irrefl _), fun _ => Nat.lt_asymm h2⟩
  · simp [List.mem_filter, hr, hu]
  · intro x hx hne
    simp only [List.mem_filter, decide_eq_true_eq] at hx
    simp only [byCreatedAtDesc, Bool.or_eq_true, decide_eq_true_eq, Bool.and_eq_true]
    rcases hall x hx.1 hx.2 hne with h | ⟨h1, h2⟩
    · exact Or.inl h
    · exact Or.inr ⟨h1.symm, h2⟩

/-- Under the store constraints the lookup by order id returns the row that
carries it. -/
theorem DB.First_orderID {db : DB} (hwf : db.WF) {r : Subscription} (hr : r ∈ db) :
    db.First (fun x => decide (x.OrderID = r.OrderID)) byID = some r := by
  cases h : db.First (fun x => decide (x.OrderID = r.OrderID)) byID with
  | none =>
    rw [DB.First_eq_none] at h
    have := h r hr
    simp at this
  | some x =>
    have hx := DB.First_some h
    simp only [decide_eq_true_eq] at hx
    rw [hwf.eq_of_OrderID hx.1 hr hx.2]

/-- Under the store constraints, saving a changed copy of the row `r` rewrites
exactly the rows that carry the order id of `r`. -/
theorem DB.Save_orderID {db : DB} (hwf : db.WF) {r : Subscription} (hr : r ∈ db)
    (f : Subscription → Subscription) (hf : (f r).ID = r.ID) :
    db.Save (f r) = db.map (fun x => if x.OrderID = r.OrderID then f x else x) := by
  unfold DB.Save
  apply List.map_congr_left
  intro x hx
  by_cases hxr : x = r
  · subst hxr
    simp [hf]
  · have h1 : x.ID ≠ r.ID := fun e => hxr (hwf.eq_of_ID hx hr e)
    have h2 : x.OrderID ≠ r.OrderID := fun e => hxr (hwf.eq_of_OrderID hx hr e)
    simp [hf, h1, h2]

/-! ## Payment notifications -/

/-- C1. On a store that keeps its constraints and holds a row with the given
order id, a notification whose lower-cased status is one of the nine
recognised strings succeeds, and the table it leaves is the old one in which
the row with that order id is replaced: by the row made active, premium,
starting now and expiring one calendar month after now, for capture,
settlement, success; by the row with status pending and nothing else
changed, for pending, challenge; by the row with status canceled and
nothing else changed, for deny, cancel, expire, failure. Rows with another
order id are kept. Nothing is assumed of the previous status of the row. -/
theorem HandlePaymentNotification_recognised (lib : Lib) (now : Time)
    (orderID rawStatus : String) (db : DB) (hwf : db.WF)
    (hrow : ∃ r ∈ db, r.OrderID = orderID)
    (hst : lib.toLower rawStatus ∈ ["capture", "settlement", "success", "pending",
      "challenge", "deny", "cancel", "expire", "failure"]) :
    HandlePaymentNotification lib now orderID rawStatus db =
      (.ok (), db.map (fun r =>
        if r.OrderID = orderID then
          if lib.toLower rawStatus ∈ ["capture", "settlement", "success"] then
            { r with Status := .active, Plan := .premium, StartsAt := some now,
                     ExpiresAt := some (lib.addDate now 0 1 0) }
          else if lib.toLower rawStatus ∈ ["pending", "challenge"] then
            { r with Status := .pending }
          else
            { r with Status := .canceled }
        else r)) := by
  obtain ⟨r, hr, rfl⟩ := hrow
  unfold HandlePaymentNotification
  rw [DB.First_orderID hwf hr]
  generalize lib.toLower rawStatus = l at hst ⊢
  have hm1 : l ∈ ["capture", "settlement", "success"] ↔
      (l = "capture" ∨ l = "settlement" ∨ l = "success") := by simp
  have hm2 : l ∈ ["pending", "challenge"] ↔ (l = "pending" ∨ l = "challenge") := by simp
  simp only [hm1, hm2]
  simp only [List.mem_cons, List.mem_singleton, List.not_mem_nil, or_false] at hst
  by_cases h1 : l = "capture" ∨ l = "settlement" ∨ l = "success"
  · simp only [if_pos h1]
    exact congrArg (Prod.mk (Except.ok ())) (DB.Save_orderID hwf hr
      (fun x => { x with
        Status := .active, StartsAt := some now, ExpiresAt := some (lib.addDate now 0 1 0),
        Plan := .premium }) rfl)
  · by_cases h2 : l = "pending" ∨ l = "challenge"
    · simp only [if_neg h1, if_pos h2]
      exact congrArg (Prod.mk (Except.ok ()))
        (DB.Save_orderID hwf hr (fun x => { x with Status := .pending }) rfl)
    · have h3 : l = "deny" ∨ l = "cancel" ∨ l = "expire" ∨ l = "failure" := by tauto
      simp only [if_neg h1, if_neg h2, if_pos h3]
      exact congrArg (Prod.mk (Except.ok ()))
        (DB.Save_orderID hwf hr (fun x => { x with Status := .canceled }) rfl)

/-- C2. A notification returns an error exactly when no row carries the
order id or the lower-cased status is none of the nine recognised strings;
the error is then the not-found error, respectively the unsupported-status
error with the status as received, and an erring call leaves the table as
it was. -/
theorem HandlePaymentNotification_error_iff (lib : Lib) (now : Time)
    (orderID rawStatus : String) (db : DB) :
    ((∃ e, (HandlePaymentNotification lib now orderID rawStatus db).1 = .error e) ↔
      ((∀ r ∈ db, r.OrderID ≠ orderID) ∨
        lib.toLower rawStatus ∉ ["capture", "settlement", "success", "pending",
          "challenge", "deny", "cancel", "expire", "failure"])) ∧
    ((∀ r ∈ db, r.OrderID ≠ orderID) →
      HandlePaymentNotification lib now orderID rawStatus db = (.error (.notFound orderID), db)) ∧
    ((∃ r ∈ db, r.OrderID = orderID) →
      lib.toLower rawStatus ∉ ["capture", "settlement", "success", "pending",
          "challenge", "deny", "cancel", "expire", "failure"] →
      HandlePaymentNotification lib now orderID rawStatus db =
        (.error (.unsupportedStatus rawStatus), db)) ∧
    (∀ e, (HandlePaymentNotification lib now orderID rawStatus db).1 = .error e →
      (HandlePaymentNotification lib now orderID rawStatus db).2 = db) := by
  unfold HandlePaymentNotification
  generalize lib.toLower rawStatus = l
  have hmem : l ∈ ["capture", "settlement", "success", "pending", "challenge", "deny",
      "cancel", "expire", "failure"] ↔
      ((l = "capture" ∨ l = "settlement" ∨ l = "success") ∨ (l = "pending" ∨ l = "challenge") ∨
        (l = "deny" ∨ l = "cancel" ∨ l = "expire" ∨ l = "failure")) := by
    simp only [List.mem_cons, List.mem_singleton, List.not_mem_nil, or_false, or_assoc]
  rw [hmem]
  cases hf : db.First (fun r => decide (r.OrderID = orderID)) byID with
  | none =>
    have hnone : ∀ r ∈ db, r.OrderID ≠ orderID := by
      intro r hr
      have := (DB.First_eq_none.mp hf) r hr
      simpa using this
    refine ⟨⟨fun _ => Or.inl hnone, fun _ => ⟨_, rfl⟩⟩, fun _ => rfl, ?_, fun _ _ => rfl⟩
    rintro ⟨r, hr, he⟩
    exact absurd he (hnone r hr)
  | some sub =>
    have hsub := DB.First_some hf
    simp only [decide_eq_true_eq] at hsub
    have hex : ¬ ∀ r ∈ db, r.OrderID ≠ orderID := fun h => h sub hsub.1 hsub.2
    by_cases h1 : l = "capture" ∨ l = "settlement" ∨ l = "success"
    · simp only [if_pos h1]
      refine ⟨⟨?_, ?_⟩, fun h => absurd h hex, ?_, ?_⟩
      · rintro ⟨e, he⟩; cases he
      · rintro (h | h)
        · exact absurd h hex
        · exact absurd (Or.inl h1) h
      · intro _ h; exact absurd (Or.inl h1) h
      · intro e he; cases he
    · by_cases h2 : l = "pending" ∨ l = "challenge"
      · simp only [if_neg h1, if_pos h2]
        refine ⟨⟨?_, ?_⟩, fun h => absurd h hex, ?_, ?_⟩
        · rintro ⟨e, he⟩; cases he
        · rintro (h | h)
          · exact absurd h hex
          · exact absurd (Or.inr (Or.inl h2)) h
        · intro _ h; exact absurd (Or.inr (Or.inl h2)) h
        · intro e he; cases he
      · by_cases h3 : l = "deny" ∨ l = "cancel" ∨ l = "expire" ∨ l = "failure"
        · simp only [if_neg h1, if_neg h2, if_pos h3]
          refine ⟨⟨?_, ?_⟩, fun h => absurd h hex, ?_, ?_⟩
          · rintro ⟨e, he⟩; cases he
          · rintro (h | h)
            · exact absurd h hex
            · exact absurd (Or.inr (Or.inr h3)) h
          · intro _ h; exact absurd (Or.inr (Or.inr h3)) h
          · intro e he; cases he
        · simp only [if_neg h1, if_neg h2, if_neg h3]
          refine ⟨⟨fun _ => Or.inr ?_, fun _ => ⟨_, rfl⟩⟩, fun h => absurd h hex,
            fun _ _ => trivial, fun _ _ => trivial⟩
          rintro (h | h | h)
          · exact h1 h
          · exact h2 h
          · exact h3 h

/-- A settlement notified in mixed case activates the pending row of the order. -/
theorem HandlePaymentNotification_recognised_witness :
    HandlePaymentNotification utcLib 1704067260 orderA "Settlement" [pendingRow] =
      (.ok (), [activeRow]) :=
  (HandlePaymentNotification_recognised utcLib 1704067260 orderA "Settlement" [pendingRow]
    (by decide) ⟨pendingRow, by simp, rfl⟩ (by decide)).trans (by decide)

/-! ## Status query -/

theorem expireIfNeeded_idem (now : Time) (u : UUID) (db : DB) :
    expireIfNeeded now u (expireIfNeeded now u db) = expireIfNeeded now u db := by
  unfold expireIfNeeded
  rw [List.map_map]
  apply List.map_congr_left
  intro r _
  simp only [Function.comp_apply]
  by_cases h : r.UserID = u ∧ r.Status = .active ∧ expiresAtOrBefore now r = true
  · rw [if_pos h]
    simp
  · rw [if_neg h, if_neg h]

theorem expireIfNeeded_of_no_rows (now : Time) (u : UUID) (db : DB)
    (h : ∀ r ∈ db, r.UserID ≠ u) : expireIfNeeded now u db = db := by
  unfold expireIfNeeded
  conv_rhs => rw [← List.map_id db]
  apply List.map_congr_left
  intro r hr
  simp [h r hr]

theorem expiresAtOrBefore_iff (now : Time) (r : Subscription) :
    expiresAtOrBefore now r = true ↔ ∃ e, r.ExpiresAt = some e ∧ e ≤ now := by
  unfold expiresAtOrBefore
  cases r.ExpiresAt <;> simp

theorem expiresAfter_iff (now : Time) (r : Subscription) :
    expiresAfter now r = true ↔ ∃ e, r.ExpiresAt = some e ∧ now < e := by
  unfold expiresAfter
  cases r.ExpiresAt <;> simp

theorem GetSubscriptionForUser_of_parse {lib : Lib} {userID : String} {u : UUID}
    (hu : lib.uuidParse userID = some u) (now : Time) (db : DB) :
    GetSubscriptionForUser lib now userID db =
      (.ok (statusViewOf (getLatestSubscription u (expireIfNeeded now u db))),
        expireIfNeeded now u db) := by
  simp [GetSubscriptionForUser, hu]

/-- C4. For a well-formed user id, the status query leaves the table row by
row as follows: a row of that user that is active with an expiry set at or
before now becomes the same row with status expired; every other row is
kept as it is. The view returned is the view of the latest row of the table
so updated, and a second query at the same instant on the updated table
returns the same view and the same table. -/
theorem GetSubscriptionForUser_lazy_expiry (lib : Lib) (now : Time) (userID : String)
    (db : DB) (u : UUID) (hu : lib.uuidParse userID = some u) :
    List.Forall₂
        (fun r r' =>
          ((r.UserID = u ∧ r.Status = .active ∧ ∃ e, r.ExpiresAt = some e ∧ e ≤ now) →
            r' = { r with Status := .expired }) ∧
          (¬ (r.UserID = u ∧ r.Status = .active ∧ ∃ e, r.ExpiresAt = some e ∧ e ≤ now) →
            r' = r))
        db (GetSubscriptionForUser lib now userID db).2 ∧
      (GetSubscriptionForUser lib now userID db).1 =
        .ok (statusViewOf
          (getLatestSubscription u (GetSubscriptionForUser lib now userID db).2)) ∧
      GetSubscriptionForUser lib now userID (GetSubscriptionForUser lib now userID db).2 =
        GetSubscriptionForUser lib now userID db := by
  simp only [GetSubscriptionForUser_of_parse hu, expireIfNeeded_idem, and_true]
  unfold expireIfNeeded
  rw [List.forall₂_map_right_iff, List.forall₂_same]
  intro r _
  simp only [expiresAtOrBefore_iff]
  constructor
  · intro h; rw [if_pos h]
  · intro h; rw [if_neg h]

/-- C8. For a well-formed user id that owns no row, the status query succeeds
with the free plan, status active, price 0, a chat limit of 30 a day, no
order id, token, redirect URL, start or expiry, and keeps the table; for a
malformed user id it fails with `invalid user id` and keeps the table. -/
theorem GetSubscriptionForUser_no_rows (lib : Lib) (now : Time) (userID : String) (db : DB) :
    (∀ u, lib.uuidParse userID = some u → (∀ r ∈ db, r.UserID ≠ u) →
      GetSubscriptionForUser lib now userID db =
        (.ok { Plan := .free, Status := .active, Price := 0, OrderID := "", PaymentToken := "",
               PaymentRedirectURL := "", StartsAt := none, ExpiresAt := none,
               ChatLimitPerDay := some 30 }, db)) ∧
    (lib.uuidParse userID = none →
      GetSubscriptionForUser lib now userID db = (.error .invalidUserID, db)) := by
  constructor
  · intro u hu hnone
    rw [GetSubscriptionForUser_of_parse hu, expireIfNeeded_of_no_rows now u db hnone]
    have : getLatestSubscription u db = none := by
      unfold getLatestSubscription
      rw [DB.First_eq_none]
      intro r hr
      simp [hnone r hr]
    rw [this]
    rfl
  · intro hu
    simp [GetSubscriptionForUser, hu]

/-- C9. For a well-formed user id whose most recently created row after the
expiry pass is `r`, the status query succeeds with a view that carries the
status, order id, token, redirect URL, start and expiry of `r`; its plan is
free when `r` is premium and not active and the plan of `r` otherwise; its
chat limit is 30 when that plan is free and absent otherwise; its price is
the price of `r` when that plan is premium and the price is positive, 20000
when that plan is premium and the price is not positive, and 0 when that
plan is free. -/
theorem GetSubscriptionForUser_view (lib : Lib) (now : Time) (userID : String) (db : DB)
    (u : UUID) (r : Subscription) (hu : lib.uuidParse userID = some u)
    (hr : getLatestSubscription u (expireIfNeeded now u db) = some r) :
    ∃ v, (GetSubscriptionForUser lib now userID db).1 = .ok v ∧
      v.Status = r.Status ∧ v.OrderID = r.OrderID ∧ v.PaymentToken = r.PaymentToken ∧
      v.PaymentRedirectURL = r.PaymentRedirectURL ∧ v.StartsAt = r.StartsAt ∧
      v.ExpiresAt = r.ExpiresAt ∧
      v.Plan = (if r.Plan = .premium ∧ r.Status ≠ .active then .free else r.Plan) ∧
      (v.Plan = .free → v.ChatLimitPerDay = some 30) ∧
      (v.Plan ≠ .free → v.ChatLimitPerDay = none) ∧
      (v.Plan = .premium → 0 < r.Price → v.Price = r.Price) ∧
      (v.Plan = .premium → r.Price ≤ 0 → v.Price = 20000) ∧
      (v.Plan = .free → v.Price = 0) := by
  rw [GetSubscriptionForUser_of_parse hu, hr]
  refine ⟨_, rfl, rfl, rfl, rfl, rfl, rfl, rfl, rfl, ?_, ?_, ?_, ?_, ?_⟩
  · intro h
    simp only [statusViewOf] at h ⊢
    simp [h, freeChatLimitPerDay]
  · intro h
    simp only [statusViewOf] at h ⊢
    simp [h]
  · intro h hp
    simp only [statusViewOf] at h ⊢
    simp [h, priceForPlan, hp]
  · intro h hp
    simp only [statusViewOf] at h ⊢
    simp [h, priceForPlan, not_lt.mpr hp, premiumMonthlyPrice]
  · intro h
    simp only [statusViewOf] at h ⊢
    simp [h, priceForPlan]

/-! ## Checkout -/

theorem DB.Create_of_fresh {db : DB} {newID : UUID} {now : Time} {sub : Subscription}
    (h : ∀ r ∈ db, r.ID ≠ newID ∧ r.OrderID ≠ sub.OrderID) :
    db.Create newID now sub =
      .ok ({ sub with ID := newID, CreatedAt := now },
        db ++ [{ sub with ID := newID, CreatedAt := now }]) := by
  unfold DB.Create
  have : db.any (fun r => decide (r.ID = newID) || decide (r.OrderID = sub.OrderID)) = false := by
    rw [List.any_eq_false]
    intro r hr
    simp [(h r hr).1, (h r hr).2]
  simp [this]

theorem DB.Create_ok_inv {db db' : DB} {newID : UUID} {now : Time} {sub row : Subscription}
    (h : db.Create newID now sub = .ok (row, db')) :
    row = { sub with ID := newID, CreatedAt := now } ∧ db' = db ++ [row] ∧
      ∀ r ∈ db, r.ID ≠ newID ∧ r.OrderID ≠ sub.OrderID := by
  unfold DB.Create at h
  by_cases hany : db.any (fun r => decide (r.ID = newID) || decide (r.OrderID = sub.OrderID)) = true
  · simp [hany] at h
  · simp only [hany, Bool.false_eq_true, if_false, Except.ok.injEq, Prod.mk.injEq] at h
    obtain ⟨h1, h2⟩ := h
    subst h1
    refine ⟨rfl, h2.symm, ?_⟩
    intro r hr
    simp only [List.any_eq_true, not_exists, not_and, Bool.or_eq_true, decide_eq_true_eq,
      not_or] at hany
    exact hany r hr

theorem DB.Save_append {db : DB} {row row' : Subscription} (h : ∀ r ∈ db, r.ID ≠ row'.ID)
    (hid : row.ID = row'.ID) : DB.Save (db ++ [row]) row' = db ++ [row'] := by
  unfold DB.Save
  rw [List.map_append]
  congr 1
  · conv_rhs => rw [← List.map_id db]
    apply List.map_congr_left
    intro r hr
    simp [h r hr]
  · simp [hid]

theorem DB.First_append_single {db : DB} {cond : Subscription → Bool}
    (before : Subscription → Subscription → Bool) (x : Subscription)
    (h : ∀ r ∈ db, cond r = false) :
    DB.First (db ++ [x]) cond before = if cond x = true then some x else none := by
  unfold DB.First
  have : db.filter cond = [] := by
    rw [List.filter_eq_nil_iff]
    intro r hr
    simp [h r hr]
  rw [List.filter_append, this, List.nil_append]
  by_cases hx : cond x = true
  · simp [hx, pickFirst]
  · simp [hx, pickFirst]

theorem generateSubscriptionOrderID_ne_empty (lib : Lib) (now : Time) (u : UUID) :
    generateSubscriptionOrderID lib now u ≠ "" := by
  intro h
  have := congrArg String.length h
  simp only [generateSubscriptionOrderID, String.length_append] at this
  have h4 : "sub-".length = 4 := by decide
  have h0 : "".length = 0 := by decide
  omega

theorem getActiveSubscription_none_of_no_rows {db : DB} {u : UUID} (now : Time)
    (h : ∀ r ∈ db, r.UserID ≠ u) : getActiveSubscription now u db = none := by
  unfold getActiveSubscription
  rw [DB.First_eq_none]
  intro r hr
  simp [h r hr]

theorem findLatestSubscriptionByStatus_none_of_no_rows {db : DB} {u : UUID}
    (st : SubscriptionStatus) (h : ∀ r ∈ db, r.UserID ≠ u) :
    findLatestSubscriptionByStatus u st db = none := by
  unfold findLatestSubscriptionByStatus
  rw [DB.First_eq_none]
  intro r hr
  simp [h r hr]

/-- The checkout of a user for whom neither the conflict nor the reuse of a
pending row applies, on a store that accepts the insert. -/
theorem CreatePremiumCheckout_new {lib : Lib} {s : SubscriptionService} {ps : PaymentService}
    {now : Time} {newID : UUID} {userID : String} {db : DB} {u : UUID}
    (hps : s.PaymentService = some ps) (hu : lib.uuidParse userID = some u)
    (hact : (getActiveSubscription now u db).filter (fun a => decide (a.Plan = .premium)) = none)
    (hpend : (findLatestSubscriptionByStatus u .pending db).filter
      (fun p => p.OrderID != "" && p.PaymentToken != "") = none)
    (hfresh : ∀ r ∈ db, r.ID ≠ newID ∧ r.OrderID ≠ generateSubscriptionOrderID lib now u) :
    CreatePremiumCheckout lib s now newID userID db =
      match ps.CreateTransaction (PaymentService.requestFor
          (generateSubscriptionOrderID lib now u) 20000 "https://hand.tbn1.site/subscription") with
      | .error msg =>
        { result := .error (.gateway msg),
          db := db ++ [{ ID := newID, UserID := u, Plan := .premium, Status := .pending,
                         OrderID := generateSubscriptionOrderID lib now u, Price := 20000,
                         PaymentToken := "", PaymentRedirectURL := "", StartsAt := none,
                         ExpiresAt := none, CreatedAt := now }],
          calls := [PaymentService.requestFor (generateSubscriptionOrderID lib now u) 20000
            "https://hand.tbn1.site/subscription"] }
      | .ok resp =>
        { result := .ok { OrderID := generateSubscriptionOrderID lib now u,
                          SubscriptionID := lib.uuidString newID, Token := resp.Token,
                          RedirectURL := resp.RedirectURL },
          db := db ++ [{ ID := newID, UserID := u, Plan := .premium, Status := .pending,
                         OrderID := generateSubscriptionOrderID lib now u, Price := 20000,
                         PaymentToken := resp.Token, PaymentRedirectURL := resp.RedirectURL,
                         StartsAt := none, ExpiresAt := none, CreatedAt := now }],
          calls := [PaymentService.requestFor (generateSubscriptionOrderID lib now u) 20000
            "https://hand.tbn1.site/subscription"] } := by
  have hc : db.Create newID now
      { ID := 0, UserID := u, Plan := .premium, Status := .pending,
        OrderID := generateSubscriptionOrderID lib now u, Price := 20000,
        PaymentToken := "", PaymentRedirectURL := "", StartsAt := none,
        ExpiresAt := none, CreatedAt := 0 } =
      .ok ({ ID := newID, UserID := u, Plan := .premium, Status := .pending,
             OrderID := generateSubscriptionOrderID lib now u, Price := 20000,
             PaymentToken := "", PaymentRedirectURL := "", StartsAt := none,
             ExpiresAt := none, CreatedAt := now },
        db ++ [{ ID := newID, UserID := u, Plan := .premium, Status := .pending,
                 OrderID := generateSubscriptionOrderID lib now u, Price := 20000,
                 PaymentToken := "", PaymentRedirectURL := "", StartsAt := none,
                 ExpiresAt := none, CreatedAt := now }]) :=
    DB.Create_of_fresh hfresh
  unfold CreatePremiumCheckout
  simp only [hps, hu, hact, hpend, PaymentService.CreatePaymentWithCallback,
    premiumMonthlyPrice, hc]
  cases ps.CreateTransaction (PaymentService.requestFor
      (generateSubscriptionOrderID lib now u) 20000 "https://hand.tbn1.site/subscription") with
  | error msg => rfl
  | ok resp =>
    simp only
    have hs : DB.Save
        (db ++ [{ ID := newID, UserID := u, Plan := .premium, Status := .pending,
                  OrderID := generateSubscriptionOrderID lib now u, Price := 20000,
                  PaymentToken := "", PaymentRedirectURL := "", StartsAt := none,
                  ExpiresAt := none, CreatedAt := now }])
        { ID := newID, UserID := u, Plan := .premium, Status := .pending,
          OrderID := generateSubscriptionOrderID lib now u, Price := 20000,
          PaymentToken := resp.Token, PaymentRedirectURL := resp.RedirectURL,
          StartsAt := none, ExpiresAt := none, CreatedAt := now } =
        db ++ [{ ID := newID, UserID := u, Plan := .premium, Status := .pending,
                 OrderID := generateSubscriptionOrderID lib now u, Price := 20000,
                 PaymentToken := resp.Token, PaymentRedirectURL := resp.RedirectURL,
                 StartsAt := none, ExpiresAt := none, CreatedAt := now }] :=
      DB.Save_append (fun r hr => (hfresh r hr).1) rfl
    rw [hs]

theorem pickFirst_byExpiresAtDesc_max :
    ∀ (l : List Subscription) (x : Subscription), pickFirst byExpiresAtDesc l = some x →
      ∀ r ∈ l, r.ExpiresAt.getD 0 ≤ x.ExpiresAt.getD 0 := by
  intro l
  induction l with
  | nil => intro x h; simp [pickFirst] at h
  | cons y ys ih =>
    intro x h r hr
    unfold pickFirst at h
    cases hp : pickFirst byExpiresAtDesc ys with
    | none =>
      rw [hp] at h
      simp only [Option.some.injEq] at h
      subst h
      rw [pickFirst_eq_none] at hp
      subst hp
      simp only [List.mem_singleton] at hr
      rw [hr]
    | some b =>
      rw [hp] at h
      simp only at h
      by_cases hb : byExpiresAtDesc b y = true
      · rw [if_pos hb] at h
        simp only [Option.some.injEq] at h
        subst h
        rcases List.mem_cons.mp hr with rfl | hr'
        · simp only [byExpiresAtDesc, Bool.or_eq_true, decide_eq_true_eq, Bool.and_eq_true] at hb
          rcases hb with h | ⟨h, _⟩
          · exact Nat.le_of_lt h
          · exact Nat.le_of_eq h.symm
        · exact ih b hp r hr'
      · rw [if_neg hb] at h
        simp only [Option.some.injEq] at h
        subst h
        rcases List.mem_cons.mp hr with rfl | hr'
        · exact le_refl _
        · have h1 := ih b hp r hr'
          refine Nat.le_trans h1 (Nat.le_of_not_lt fun hc => hb ?_)
          simp only [byExpiresAtDesc, Bool.or_eq_true, decide_eq_true_eq]
          exact Or.inl hc

/-- C7. The purchase scenario. For a well-formed user id that owns no row, a
configured payment service whose gateway answers the request with a token
and a redirect URL, and a store that accepts the insert, the checkout
appends exactly one row (that user, pending, premium, price 20000, the
token and URL of the gateway, created now), sends the gateway one request
and returns the order id of the row, its identifier, the token and the
URL; a notification `capture` for that order id at a later call makes the
row active from that instant with an expiry one calendar month later; and a
status query of the user before that expiry returns plan premium, status
active, price 20000 and no chat limit, and changes no row. -/
theorem purchase_scenario (lib : Lib) (ps : PaymentService) (now1 now2 now3 : Time)
    (newID : UUID) (userID : String) (u : UUID) (db : DB) (token url : String)
    (hu : lib.uuidParse userID = some u) (hnone : ∀ r ∈ db, r.UserID ≠ u)
    (hfresh : ∀ r ∈ db, r.ID ≠ newID ∧ r.OrderID ≠ generateSubscriptionOrderID lib now1 u)
    (hgw : ps.CreateTransaction (PaymentService.requestFor
      (generateSubscriptionOrderID lib now1 u) 20000 "https://hand.tbn1.site/subscription") =
        .ok { Token := token, RedirectURL := url })
    (hlow : lib.toLower "capture" = "capture")
    (hbefore : now3 < lib.addDate now2 0 1 0) :
    (CreatePremiumCheckout lib { PaymentService := some ps } now1 newID userID db).result =
        .ok { OrderID := generateSubscriptionOrderID lib now1 u,
              SubscriptionID := lib.uuidString newID, Token := token, RedirectURL := url } ∧
      (CreatePremiumCheckout lib { PaymentService := some ps } now1 newID userID db).db =
        db ++ [{ ID := newID, UserID := u, Plan := .premium, Status := .pending,
                 OrderID := generateSubscriptionOrderID lib now1 u, Price := 20000,
                 PaymentToken := token, PaymentRedirectURL := url, StartsAt := none,
                 ExpiresAt := none, CreatedAt := now1 }] ∧
      (CreatePremiumCheckout lib { PaymentService := some ps } now1 newID userID db).calls =
        [{ OrderID := generateSubscriptionOrderID lib now1 u, GrossAmt := 20000,
           ExpiryUnit := "minute", ExpiryDuration := 5,
           Finish := "https://hand.tbn1.site/subscription" }] ∧
      HandlePaymentNotification lib now2 (generateSubscriptionOrderID lib now1 u) "capture"
          (CreatePremiumCheckout lib { PaymentService := some ps } now1 newID userID db).db =
        (.ok (),
          db ++ [{ ID := newID, UserID := u, Plan := .premium, Status := .active,
                   OrderID := generateSubscriptionOrderID lib now1 u, Price := 20000,
                   PaymentToken := token, PaymentRedirectURL := url, StartsAt := some now2,
                   ExpiresAt := some (lib.addDate now2 0 1 0), CreatedAt := now1 }]) ∧
      GetSubscriptionForUser lib now3 userID
          (HandlePaymentNotification lib now2 (generateSubscriptionOrderID lib now1 u) "capture"
            (CreatePremiumCheckout lib { PaymentService := some ps } now1 newID userID db).db).2 =
        (.ok { Plan := .premium, Status := .active, Price := 20000,
               OrderID := generateSubscriptionOrderID lib now1 u, PaymentToken := token,
               PaymentRedirectURL := url, StartsAt := some now2,
               ExpiresAt := some (lib.addDate now2 0 1 0), ChatLimitPerDay := none },
          db ++ [{ ID := newID, UserID := u, Plan := .premium, Status := .active,
                   OrderID := generateSubscriptionOrderID lib now1 u, Price := 20000,
                   PaymentToken := token, PaymentRedirectURL := url, StartsAt := some now2,
                   ExpiresAt := some (lib.addDate now2 0 1 0), CreatedAt := now1 }]) := by
  have hact : (getActiveSubscription now1 u db).filter
      (fun a => decide (a.Plan = .premium)) = none := by
    rw [getActiveSubscription_none_of_no_rows now1 hnone]; rfl
  have hpend : (findLatestSubscriptionByStatus u .pending db).filter
      (fun p => p.OrderID != "" && p.PaymentToken != "") = none := by
    rw [findLatestSubscriptionByStatus_none_of_no_rows .pending hnone]; rfl
  have h1 : CreatePremiumCheckout lib { PaymentService := some ps } now1 newID userID db = _ :=
    CreatePremiumCheckout_new rfl hu hact hpend hfresh
  rw [hgw] at h1
  simp only at h1
  rw [h1]
  refine ⟨rfl, rfl, ?_, ?_⟩
  · simp [PaymentService.requestFor]
  · have h2 : HandlePaymentNotification lib now2 (generateSubscriptionOrderID lib now1 u)
        "capture"
        (db ++ [{ ID := newID, UserID := u, Plan := .premium, Status := .pending,
                  OrderID := generateSubscriptionOrderID lib now1 u, Price := 20000,
                  PaymentToken := token, PaymentRedirectURL := url, StartsAt := none,
                  ExpiresAt := none, CreatedAt := now1 }]) =
        (.ok (),
          db ++ [{ ID := newID, UserID := u, Plan := .premium, Status := .active,
                   OrderID := generateSubscriptionOrderID lib now1 u, Price := 20000,
                   PaymentToken := token, PaymentRedirectURL := url, StartsAt := some now2,
                   ExpiresAt := some (lib.addDate now2 0 1 0), CreatedAt := now1 }]) := by
      unfold HandlePaymentNotification
      rw [DB.First_append_single byID _ (fun r hr => by simp [(hfresh r hr).2])]
      simp only [decide_True, if_true, hlow, true_or]
      exact congrArg (Prod.mk (Except.ok ())) (DB.Save_append (fun r hr => (hfresh r hr).1) rfl)
    refine ⟨h2, ?_⟩
    rw [h2, GetSubscriptionForUser_of_parse hu]
    have h3 : expireIfNeeded now3 u
        (db ++ [{ ID := newID, UserID := u, Plan := .premium, Status := .active,
                  OrderID := generateSubscriptionOrderID lib now1 u, Price := 20000,
                  PaymentToken := token, PaymentRedirectURL := url, StartsAt := some now2,
                  ExpiresAt := some (lib.addDate now2 0 1 0), CreatedAt := now1 }]) =
        db ++ [{ ID := newID, UserID := u, Plan := .premium, Status := .active,
                 OrderID := generateSubscriptionOrderID lib now1 u, Price := 20000,
                 PaymentToken := token, PaymentRedirectURL := url, StartsAt := some now2,
                 ExpiresAt := some (lib.addDate now2 0 1 0), CreatedAt := now1 }] := by
      have hx := expireIfNeeded_of_no_rows now3 u db hnone
      unfold expireIfNeeded at hx ⊢
      rw [List.map_append, hx]
      simp [expiresAtOrBefore, not_le.mpr hbefore]
    rw [h3]
    unfold getLatestSubscription
    rw [DB.First_append_single byCreatedAtDesc _ (fun r hr => by simp [hnone r hr])]
    simp [statusViewOf, priceForPlan]

/-- C5, amended. For a well-formed user id that owns no row, if a checkout
succeeds with a non-empty token, a second checkout of the same user made
right after it (at any instant, whatever identifier the store would assign)
returns the same order id, subscription id, token and redirect URL, leaves
the table as the first call left it, and sends the gateway no request. -/
theorem CreatePremiumCheckout_idempotent (lib : Lib) (s : SubscriptionService)
    (now1 now2 : Time) (newID1 newID2 : UUID) (userID : String) (u : UUID) (db : DB)
    (resp : CheckoutResponse) (hu : lib.uuidParse userID = some u)
    (hnone : ∀ r ∈ db, r.UserID ≠ u)
    (hok : (CreatePremiumCheckout lib s now1 newID1 userID db).result = .ok resp)
    (htok : resp.Token ≠ "") :
    (CreatePremiumCheckout lib s now2 newID2 userID
        (CreatePremiumCheckout lib s now1 newID1 userID db).db).result = .ok resp ∧
      (CreatePremiumCheckout lib s now2 newID2 userID
        (CreatePremiumCheckout lib s now1 newID1 userID db).db).db =
        (CreatePremiumCheckout lib s now1 newID1 userID db).db ∧
      (CreatePremiumCheckout lib s now2 newID2 userID
        (CreatePremiumCheckout lib s now1 newID1 userID db).db).calls = [] := by
  have hact : (getActiveSubscription now1 u db).filter
      (fun a => decide (a.Plan = .premium)) = none := by
    rw [getActiveSubscription_none_of_no_rows now1 hnone]; rfl
  have hpend : (findLatestSubscriptionByStatus u .pending db).filter
      (fun p => p.OrderID != "" && p.PaymentToken != "") = none := by
    rw [findLatestSubscriptionByStatus_none_of_no_rows .pending hnone]; rfl
  cases hps : s.PaymentService with
  | none => simp [CreatePremiumCheckout, hps] at hok
  | some ps =>
    cases hC : db.Create newID1 now1
        { ID := 0, UserID := u, Plan := .premium, Status := .pending,
          OrderID := generateSubscriptionOrderID lib now1 u, Price := premiumMonthlyPrice,
          PaymentToken := "", PaymentRedirectURL := "", StartsAt := none,
          ExpiresAt := none, CreatedAt := 0 } with
    | error e => simp [CreatePremiumCheckout, hps, hu, hact, hpend, hC] at hok
    | ok p =>
      obtain ⟨row, db'⟩ := p
      have hfresh := (DB.Create_ok_inv hC).2.2
      simp only at hfresh
      have h1 : CreatePremiumCheckout lib s now1 newID1 userID db = _ :=
        CreatePremiumCheckout_new hps hu hact hpend hfresh
      rw [h1] at hok ⊢
      cases hg : ps.CreateTransaction (PaymentService.requestFor
          (generateSubscriptionOrderID lib now1 u) 20000
          "https://hand.tbn1.site/subscription") with
      | error msg => simp [hg] at hok
      | ok g =>
        rw [hg] at hok
        simp only [Except.ok.injEq] at hok
        subst hok
        simp only at htok ⊢
        have ha2 : getActiveSubscription now2 u
            (db ++ [{ ID := newID1, UserID := u, Plan := .premium, Status := .pending,
                      OrderID := generateSubscriptionOrderID lib now1 u, Price := 20000,
                      PaymentToken := g.Token, PaymentRedirectURL := g.RedirectURL,
                      StartsAt := none, ExpiresAt := none, CreatedAt := now1 }]) = none := by
          unfold getActiveSubscription
          rw [DB.First_append_single byExpiresAtDesc _ (fun r hr => by simp [hnone r hr])]
          simp
        have hp2 : findLatestSubscriptionByStatus u .pending
            (db ++ [{ ID := newID1, UserID := u, Plan := .premium, Status := .pending,
                      OrderID := generateSubscriptionOrderID lib now1 u, Price := 20000,
                      PaymentToken := g.Token, PaymentRedirectURL := g.RedirectURL,
                      StartsAt := none, ExpiresAt := none, CreatedAt := now1 }]) =
            some { ID := newID1, UserID := u, Plan := .premium, Status := .pending,
                   OrderID := generateSubscriptionOrderID lib now1 u, Price := 20000,
                   PaymentToken := g.Token, PaymentRedirectURL := g.RedirectURL,
                   StartsAt := none, ExpiresAt := none, CreatedAt := now1 } := by
          unfold findLatestSubscriptionByStatus
          rw [DB.First_append_single byCreatedAtDesc _ (fun r hr => by simp [hnone r hr])]
          simp
        unfold CreatePremiumCheckout
        simp [hps, hu, ha2, hp2, Option.filter, htok, generateSubscriptionOrderID_ne_empty]

/-- When the user has an active row that expires at `e` after now and every
active row of the user that expires at `e` or later is premium, the row
`getActiveSubscription` returns is a premium row of the user that expires
at `e` or later. -/
theorem getActiveSubscription_premium (now : Time) (u : UUID) (db : DB) (a : Subscription)
    (e : Time) (ha : a ∈ db) (hau : a.UserID = u) (has : a.Status = .active)
    (hae : a.ExpiresAt = some e) (hnow : now < e)
    (hall : ∀ r ∈ db, r.UserID = u → r.Status = .active →
      ∀ e', r.ExpiresAt = some e' → e ≤ e' → r.Plan = .premium) :
    ∃ x e', getActiveSubscription now u db = some x ∧ x ∈ db ∧ x.UserID = u ∧
      x.Plan = .premium ∧ x.Status = .active ∧ x.ExpiresAt = some e' ∧ e ≤ e' := by
  have hcond : (decide (a.UserID = u) && decide (a.Status = .active) &&
      expiresAfter now a) = true := by
    simp [hau, has, expiresAfter, hae, hnow]
  cases hx : getActiveSubscription now u db with
  | none =>
    unfold getActiveSubscription at hx
    rw [DB.First_eq_none] at hx
    have hfalse := hx a ha
    simp only at hfalse
    rw [hcond] at hfalse
    exact absurd hfalse (by simp)
  | some x =>
    have hx' := hx
    unfold getActiveSubscription at hx'
    obtain ⟨hxmem, hxc⟩ := DB.First_some hx'
    simp only [Bool.and_eq_true, decide_eq_true_eq, expiresAfter_iff] at hxc
    obtain ⟨⟨hxu, hxs⟩, e', hxe, _⟩ := hxc
    have hmax := pickFirst_byExpiresAtDesc_max _ x hx' a
      (List.mem_filter.mpr ⟨ha, hcond⟩)
    rw [hae, hxe] at hmax
    simp only [Option.getD_some] at hmax
    exact ⟨x, e', rfl, hxmem, hxu, hall x hxmem hxu hxs e' hxe hmax, hxs, hxe, hmax⟩

/-! ## Status transitions -/

/-- A checkout leaves the table as it was or appends one pending row whose
identifier and order id were not taken. -/
theorem CreatePremiumCheckout_db_cases (lib : Lib) (s : SubscriptionService) (now : Time)
    (newID : UUID) (userID : String) (db : DB) :
    (CreatePremiumCheckout lib s now newID userID db).db = db ∨
      ∃ row : Subscription, (∀ r ∈ db, r.ID ≠ row.ID ∧ r.OrderID ≠ row.OrderID) ∧
        row.Status = .pending ∧ row.Plan = .premium ∧ row.ID = newID ∧
        (CreatePremiumCheckout lib s now newID userID db).db = db ++ [row] := by
  unfold CreatePremiumCheckout
  cases hps : s.PaymentService with
  | none => exact Or.inl rfl
  | some ps =>
    cases hu : lib.uuidParse userID with
    | none => exact Or.inl rfl
    | some u =>
      simp only
      cases hact : (getActiveSubscription now u db).filter
          (fun a => decide (a.Plan = .premium)) with
      | some a => exact Or.inl rfl
      | none =>
        simp only
        cases hpend : (findLatestSubscriptionByStatus u .pending db).filter
            (fun p => p.OrderID != "" && p.PaymentToken != "") with
        | some p => exact Or.inl rfl
        | none =>
          simp only
          cases hC : db.Create newID now
              { ID := 0, UserID := u, Plan := .premium, Status := .pending,
                OrderID := generateSubscriptionOrderID lib now u, Price := premiumMonthlyPrice,
                PaymentToken := "", PaymentRedirectURL := "", StartsAt := none,
                ExpiresAt := none, CreatedAt := 0 } with
          | error e => exact Or.inl rfl
          | ok p =>
            obtain ⟨row, db'⟩ := p
            obtain ⟨hrow, hdb', hfresh⟩ := DB.Create_ok_inv hC
            simp only at hfresh
            subst hdb'
            right
            simp only
            cases ps.CreatePaymentWithCallback (generateSubscriptionOrderID lib now u)
                premiumMonthlyPrice "https://hand.tbn1.site/subscription" with
            | error msg =>
              refine ⟨row, ?_, ?_, ?_, ?_, rfl⟩
              · rw [hrow]; exact hfresh
              · rw [hrow]
              · rw [hrow]
              · rw [hrow]
            | ok g =>
              simp only
              refine ⟨{ row with PaymentToken := g.Token, PaymentRedirectURL := g.RedirectURL },
                ?_, ?_, ?_, ?_, ?_⟩
              · rw [hrow]; exact hfresh
              · rw [hrow]
              · rw [hrow]
              · rw [hrow]
              · exact DB.Save_append (fun r hr => by rw [hrow]; exact (hfresh r hr).1) rfl

/-- The status query keeps the store constraints. -/
theorem GetSubscriptionForUser_WF (lib : Lib) (now : Time) (userID : String) (db : DB)
    (hwf : db.WF) : DB.WF (GetSubscriptionForUser lib now userID db).2 := by
  unfold GetSubscriptionForUser
  cases lib.uuidParse userID with
  | none => exact hwf
  | some u =>
    simp only [expireIfNeeded]
    refine List.Pairwise.map _ ?_ hwf
    intro a b hab
    by_cases ha : a.UserID = u ∧ a.Status = .active ∧ expiresAtOrBefore now a = true <;>
      by_cases hb : b.UserID = u ∧ b.Status = .active ∧ expiresAtOrBefore now b = true <;>
      simp only [ha, hb, if_true, if_false, and_self] <;> exact hab

/-- A checkout keeps the store constraints. -/
theorem CreatePremiumCheckout_WF (lib : Lib) (s : SubscriptionService) (now : Time)
    (newID : UUID) (userID : String) (db : DB) (hwf : db.WF) :
    DB.WF (CreatePremiumCheckout lib s now newID userID db).db := by
  rcases CreatePremiumCheckout_db_cases lib s now newID userID db with
    h | ⟨row, hfresh, _, _, _, h⟩
  · rw [h]; exact hwf
  · rw [h]
    unfold DB.WF
    rw [List.pairwise_append]
    refine ⟨hwf, List.pairwise_singleton _ _, ?_⟩
    intro a ha b hb
    rw [List.mem_singleton] at hb
    subst hb
    exact hfresh a ha

/-- What a notification leaves: the table as it was, or the table in which
the rows with the notified order id carry the new status (and, when made
active, the premium plan and the new period). -/
theorem HandlePaymentNotification_db_cases (lib : Lib) (now : Time)
    (orderID transactionStatus : String) (db : DB) (hwf : db.WF) :
    (HandlePaymentNotification lib now orderID transactionStatus db).2 = db ∨
      (lib.toLower transactionStatus ∈ ["capture", "settlement", "success"] ∧
        (HandlePaymentNotification lib now orderID transactionStatus db).2 =
          db.map (fun x => if x.OrderID = orderID then
            { x with Status := .active, Plan := .premium, StartsAt := some now,
                     ExpiresAt := some (lib.addDate now 0 1 0) } else x)) ∨
      (lib.toLower transactionStatus ∈ ["pending", "challenge"] ∧
        (HandlePaymentNotification lib now orderID transactionStatus db).2 =
          db.map (fun x => if x.OrderID = orderID then { x with Status := .pending } else x)) ∨
      (lib.toLower transactionStatus ∈ ["deny", "cancel", "expire", "failure"] ∧
        (HandlePaymentNotification lib now orderID transactionStatus db).2 =
          db.map (fun x => if x.OrderID = orderID then { x with Status := .canceled } else x)) := by
  unfold HandlePaymentNotification
  cases hf : db.First (fun r => decide (r.OrderID = orderID)) byID with
  | none => exact Or.inl rfl
  | some sub =>
    obtain ⟨hsub, ho⟩ := DB.First_some hf
    simp only [decide_eq_true_eq] at ho
    subst ho
    generalize lib.toLower transactionStatus = l
    simp only [List.mem_cons, List.mem_singleton, List.not_mem_nil, or_false]
    by_cases h1 : l = "capture" ∨ l = "settlement" ∨ l = "success"
    · simp only [if_pos h1]
      exact Or.inr (Or.inl ⟨h1, DB.Save_orderID hwf hsub
        (fun x => { x with
          Status := .active, StartsAt := some now, ExpiresAt := some (lib.addDate now 0 1 0),
          Plan := .premium }) rfl⟩)
    · by_cases h2 : l = "pending" ∨ l = "challenge"
      · simp only [if_neg h1, if_pos h2]
        exact Or.inr (Or.inr (Or.inl ⟨h2, DB.Save_orderID hwf hsub
          (fun x => { x with Status := .pending }) rfl⟩))
      · by_cases h3 : l = "deny" ∨ l = "cancel" ∨ l = "expire" ∨ l = "failure"
        · simp only [if_neg h1, if_neg h2, if_pos h3]
          exact Or.inr (Or.inr (Or.inr ⟨h3, DB.Save_orderID hwf hsub
            (fun x => { x with Status := .canceled }) rfl⟩))
        · simp only [if_neg h1, if_neg h2, if_neg h3]
          exact Or.inl trivial

/-- A notification keeps the store constraints. -/
theorem HandlePaymentNotification_WF (lib : Lib) (now : Time)
    (orderID transactionStatus : String) (db : DB) (hwf : db.WF) :
    DB.WF (HandlePaymentNotification lib now orderID transactionStatus db).2 := by
  rcases HandlePaymentNotification_db_cases lib now orderID transactionStatus db hwf with
    h | ⟨_, h⟩ | ⟨_, h⟩ | ⟨_, h⟩
  · rw [h]; exact hwf
  all_goals
    rw [h]
    refine List.Pairwise.map _ ?_ hwf
    intro a b hab
    split_ifs <;> exact hab

/-- Every table the service can produce keeps the store constraints and
holds premium rows only. -/
theorem Reachable.invariant {lib : Lib} {t : Time} {db : DB} (h : Reachable lib t db) :
    db.WF ∧ ∀ r ∈ db, r.Plan = .premium := by
  induction h with
  | empty => exact ⟨List.Pairwise.nil, fun r hr => by simp at hr⟩
  | status now userID _ _ ih =>
    refine ⟨GetSubscriptionForUser_WF lib now userID _ ih.1, ?_⟩
    unfold GetSubscriptionForUser
    cases lib.uuidParse userID with
    | none => exact ih.2
    | some u =>
      intro r hr
      simp only [expireIfNeeded, List.mem_map] at hr
      obtain ⟨x, hx, rfl⟩ := hr
      split_ifs
      · exact ih.2 x hx
      · exact ih.2 x hx
  | checkout s now newID userID _ _ ih =>
    refine ⟨CreatePremiumCheckout_WF lib s now newID userID _ ih.1, ?_⟩
    rcases CreatePremiumCheckout_db_cases lib s now newID userID _ with
      h | ⟨row, _, _, hp, _, h⟩
    · rw [h]; exact ih.2
    · rw [h]
      intro r hr
      rcases List.mem_append.mp hr with hr | hr
      · exact ih.2 r hr
      · rw [List.mem_singleton] at hr
        rw [hr]; exact hp
  | notification now orderID st _ _ ih =>
    refine ⟨HandlePaymentNotification_WF lib now orderID st _ ih.1, ?_⟩
    rcases HandlePaymentNotification_db_cases lib now orderID st _ ih.1 with
      h | ⟨_, h⟩ | ⟨_, h⟩ | ⟨_, h⟩
    · rw [h]; exact ih.2
    all_goals
      rw [h]
      intro r hr
      rw [List.mem_map] at hr
      obtain ⟨x, hx, rfl⟩ := hr
      split_ifs
      · first | rfl | exact ih.2 x hx
      · exact ih.2 x hx

/-- C6. On every table the service can produce, with the payment service
configured and a well-formed user id, if the user has a row with plan
premium, status active and an expiry `e` after now, the checkout fails with
the error `premium plan already active until <expiry>`, whose expiry is not
before `e` and is the expiry of an active premium row of the user; it
inserts no row, changes no row and sends the gateway no request. -/
theorem CreatePremiumCheckout_conflict (lib : Lib) (ps : PaymentService) (t now : Time)
    (newID : UUID) (userID : String) (u : UUID) (db : DB) (a : Subscription) (e : Time)
    (hreach : Reachable lib t db) (hu : lib.uuidParse userID = some u) (ha : a ∈ db)
    (hau : a.UserID = u) (_hap : a.Plan = .premium) (has : a.Status = .active)
    (hae : a.ExpiresAt = some e) (hnow : now < e) :
    ∃ e', (CreatePremiumCheckout lib { PaymentService := some ps } now newID userID db).result =
          .error (.alreadyActive e') ∧ e ≤ e' ∧
      (∃ r ∈ db, r.UserID = u ∧ r.Plan = .premium ∧ r.Status = .active ∧
        r.ExpiresAt = some e') ∧
      (CreatePremiumCheckout lib { PaymentService := some ps } now newID userID db).db = db ∧
      (CreatePremiumCheckout lib { PaymentService := some ps } now newID userID db).calls = [] := by
  obtain ⟨x, e', hx, hxmem, hxu, hxp, hxs, hxe, hle⟩ :=
    getActiveSubscription_premium now u db a e ha hau has hae hnow
      (fun r hr _ _ _ _ _ => hreach.invariant.2 r hr)
  refine ⟨e', ?_, hle, ⟨x, hxmem, hxu, hxp, hxs, hxe⟩, ?_, ?_⟩
  all_goals
    unfold CreatePremiumCheckout
    simp [hu, hx, Option.filter, hxp, hxe]

/-- C3, counterexample. A canceled row is made active by a later `success`
notification for its order id: canceled is not final. -/
theorem canceled_row_reactivated :
    canceledRow.Status = .canceled ∧
      HandlePaymentNotification utcLib 1704067260 orderA "success" [canceledRow] =
        (.ok (), [activeRow]) := by
  decide

/-- C3, amended. On a store that keeps its constraints, for every row and
every single operation: the status query leaves the row as it is or, when
it was active, turns it into the same row with status expired; a checkout
leaves the row as it is; a notification leaves the row as it is unless the
row carries the notified order id, in which case its status becomes active
(capture, settlement, success), pending (pending, challenge) or canceled
(deny, cancel, expire, failure), whatever it was before. -/
theorem status_transitions (lib : Lib) (db : DB) (hwf : db.WF) (r : Subscription)
    (hr : r ∈ db) :
    (∀ now userID, ∃ r' ∈ (GetSubscriptionForUser lib now userID db).2, r'.ID = r.ID ∧
      (r' = r ∨ (r.Status = .active ∧ r' = { r with Status := .expired }))) ∧
    (∀ s now newID userID, r ∈ (CreatePremiumCheckout lib s now newID userID db).db) ∧
    (∀ now orderID st, ∃ r' ∈ (HandlePaymentNotification lib now orderID st db).2,
      r'.ID = r.ID ∧
      (r' = r ∨ (r.OrderID = orderID ∧
        ((lib.toLower st ∈ ["capture", "settlement", "success"] ∧ r'.Status = .active) ∨
         (lib.toLower st ∈ ["pending", "challenge"] ∧ r'.Status = .pending) ∨
         (lib.toLower st ∈ ["deny", "cancel", "expire", "failure"] ∧
            r'.Status = .canceled))))) := by
  refine ⟨?_, ?_, ?_⟩
  · intro now userID
    unfold GetSubscriptionForUser
    cases lib.uuidParse userID with
    | none => exact ⟨r, hr, rfl, Or.inl rfl⟩
    | some u =>
      simp only [expireIfNeeded]
      by_cases h : r.UserID = u ∧ r.Status = .active ∧ expiresAtOrBefore now r = true
      · refine ⟨{ r with Status := .expired }, ?_, rfl, Or.inr ⟨h.2.1, rfl⟩⟩
        rw [List.mem_map]
        exact ⟨r, hr, by rw [if_pos h]⟩
      · refine ⟨r, ?_, rfl, Or.inl rfl⟩
        rw [List.mem_map]
        exact ⟨r, hr, by rw [if_neg h]⟩
  · intro s now newID userID
    rcases CreatePremiumCheckout_db_cases lib s now newID userID db with
      h | ⟨row, _, _, _, _, h⟩
    · rw [h]; exact hr
    · rw [h]; exact List.mem_append_left _ hr
  · intro now orderID st
    rcases HandlePaymentNotification_db_cases lib now orderID st db hwf with
      h | ⟨hl, h⟩ | ⟨hl, h⟩ | ⟨hl, h⟩
    · rw [h]; exact ⟨r, hr, rfl, Or.inl rfl⟩
    all_goals
      rw [h]
      by_cases ho : r.OrderID = orderID
      · refine ⟨_, List.mem_map.mpr ⟨r, hr, rfl⟩, ?_, Or.inr ⟨ho, ?_⟩⟩
        · rw [if_pos ho]
        · rw [if_pos ho]
          simp only [hl, true_and]
          tauto
      · refine ⟨r, List.mem_map.mpr ⟨r, hr, ?_⟩, rfl, Or.inl rfl⟩
        rw [if_neg ho]

/-- C5, counterexample. The gateway answers with an empty token; the first
checkout succeeds, and the second checkout a minute later inserts a second
row, sends the gateway a second request and returns another order id. -/
theorem checkout_repeated_with_empty_token :
    CreatePremiumCheckout utcLib { PaymentService := some (fixedGateway "" "https://pay/1") }
        1704067200 1 userA [] =
      { result := .ok { OrderID := orderA,
                        SubscriptionID := "00000000-0000-0000-0000-000000000001",
                        Token := "", RedirectURL := "https://pay/1" },
        db := [{ pendingRow with PaymentToken := "" }],
        calls := [PaymentService.requestFor orderA 20000 "https://hand.tbn1.site/subscription"] } ∧
    CreatePremiumCheckout utcLib { PaymentService := some (fixedGateway "" "https://pay/1") }
        1704067260 2 userA [{ pendingRow with PaymentToken := "" }] =
      { result := .ok { OrderID := "sub-1704067260-0000000000000000000000000000000a",
                        SubscriptionID := "00000000-0000-0000-0000-000000000002",
                        Token := "", RedirectURL := "https://pay/1" },
        db := [{ pendingRow with PaymentToken := "" },
               { pendingRow with
                   ID := 2, PaymentToken := "", CreatedAt := 1704067260,
                   OrderID := "sub-1704067260-0000000000000000000000000000000a" }],
        calls := [PaymentService.requestFor "sub-1704067260-0000000000000000000000000000000a"
                    20000 "https://hand.tbn1.site/subscription"] } := by
  decide

/-- A table the service does not produce: next to the active premium row
it holds an active row on the free plan that expires later. On it the
conflict test reads the free row, and the checkout inserts a pending row
and calls the gateway. -/
theorem checkout_behind_seeded_free_row :
    (∀ t, ¬ Reachable utcLib t [activeRow, freeRow]) ∧
      CreatePremiumCheckout utcLib { PaymentService := some (fixedGateway "tok2" "https://pay/2") }
          1704067320 3 userA [activeRow, freeRow] =
        { result := .ok { OrderID := "sub-1704067320-0000000000000000000000000000000a",
                          SubscriptionID := "00000000-0000-0000-0000-000000000003",
                          Token := "tok2", RedirectURL := "https://pay/2" },
          db := [activeRow, freeRow,
                 { pendingRow with
                     ID := 3, PaymentToken := "tok2",
                     PaymentRedirectURL := "https://pay/2", CreatedAt := 1704067320,
                     OrderID := "sub-1704067320-0000000000000000000000000000000a" }],
          calls := [PaymentService.requestFor "sub-1704067320-0000000000000000000000000000000a"
                      20000 "https://hand.tbn1.site/subscription"] } := by
  refine ⟨fun t h => ?_, by decide⟩
  have := h.invariant.2 freeRow (by simp)
  exact absurd this (by decide)

/-- C10. The table `deniedThenSettled` is one the service produces (checkout,
payment denied, second checkout, late settlement of the first order, at
increasing instants). In it the user holds an active premium row that
expires after now, and a checkout reports the conflict; yet the status
query answers from the pending row created last, with plan free and status
pending, and the premium gate turns the user away. -/
theorem paid_user_not_admitted :
    Reachable utcLib 1704067380 deniedThenSettled ∧
      deniedThenSettled =
        [{ pendingRow with Status := .active, StartsAt := some 1704067380,
                           ExpiresAt := some 1706745780 },
         { pendingRow with
             ID := 2, CreatedAt := 1704067320,
             OrderID := "sub-1704067320-0000000000000000000000000000000a" }] ∧
      (CreatePremiumCheckout utcLib
          { PaymentService := some (fixedGateway "tok1" "https://pay/1") }
          1704067440 3 userA deniedThenSettled).result = .error (.alreadyActive 1706745780) ∧
      (GetSubscriptionForUser utcLib 1704067440 userA deniedThenSettled).1 =
        .ok { Plan := .free, Status := .pending, Price := 0,
              OrderID := "sub-1704067320-0000000000000000000000000000000a",
              PaymentToken := "tok1", PaymentRedirectURL := "https://pay/1",
              StartsAt := none, ExpiresAt := none, ChatLimitPerDay := some 30 } ∧
      PremiumOnly utcLib 1704067440 userA deniedThenSettled = false := by
  refine ⟨?_, by decide⟩
  exact Reachable.notification 1704067380 orderA "settlement"
    (Reachable.checkout { PaymentService := some (fixedGateway "tok1" "https://pay/1") }
      1704067320 2 userA
      (Reachable.notification 1704067260 orderA "deny"
        (Reachable.checkout { PaymentService := some (fixedGateway "tok1" "https://pay/1") }
          1704067200 1 userA Reachable.empty (by decide))
        (by decide))
      (by decide))
    (by decide)

/-- The same disagreement without any row leaving a final status: the first
checkout fails at the gateway and leaves a pending row, the second succeeds,
and the first order is then notified as settled. -/
theorem first_order_settled_after_retry :
    failedThenSettled =
        [{ pendingRow with
             Status := .active, PaymentToken := "", PaymentRedirectURL := "",
             StartsAt := some 1704067380, ExpiresAt := some 1706745780 },
         { pendingRow with
             ID := 2, CreatedAt := 1704067320,
             OrderID := "sub-1704067320-0000000000000000000000000000000a" }] ∧
      (CreatePremiumCheckout utcLib
          { PaymentService := some (fixedGateway "tok1" "https://pay/1") }
          1704067440 3 userA failedThenSettled).result = .error (.alreadyActive 1706745780) ∧
      PremiumOnly utcLib 1704067440 userA failedThenSettled = false := by
  decide

/-! ## The theorems at concrete inputs -/

/-- The status `foo` is refused and the row of the order is kept. -/
theorem HandlePaymentNotification_error_iff_witness :
    HandlePaymentNotification utcLib 1704067260 orderA "foo" [pendingRow] =
      (.error (.unsupportedStatus "foo"), [pendingRow]) :=
  (HandlePaymentNotification_error_iff utcLib 1704067260 orderA "foo" [pendingRow]).2.2.1
    ⟨pendingRow, by simp, rfl⟩ (by decide)

/-- A status query at the expiry of the active row of the examples. -/
theorem status_transitions_witness :
    ∃ r' ∈ (GetSubscriptionForUser utcLib 1706745660 userA [activeRow]).2,
      r'.ID = activeRow.ID ∧
        (r' = activeRow ∨
          (activeRow.Status = .active ∧ r' = { activeRow with Status := .expired })) :=
  (status_transitions utcLib [activeRow] (by decide) activeRow (by simp)).1 1706745660 userA

/-- A second status query at the instant of the expiry returns what the first returned. -/
theorem GetSubscriptionForUser_lazy_expiry_witness :
    utcLib.uuidParse userA = some 10 ∧
      GetSubscriptionForUser utcLib 1706745660 userA
          (GetSubscriptionForUser utcLib 1706745660 userA [activeRow]).2 =
        GetSubscriptionForUser utcLib 1706745660 userA [activeRow] :=
  ⟨by decide,
    (GetSubscriptionForUser_lazy_expiry utcLib 1706745660 userA [activeRow] 10 (by decide)).2.2⟩

/-- A second checkout a minute after the first returns the credentials of the first. -/
theorem CreatePremiumCheckout_idempotent_witness :
    (CreatePremiumCheckout utcLib { PaymentService := some (fixedGateway "tok1" "https://pay/1") }
        1704067260 2 userA
        (CreatePremiumCheckout utcLib
          { PaymentService := some (fixedGateway "tok1" "https://pay/1") }
          1704067200 1 userA []).db).result =
      .ok { OrderID := orderA, SubscriptionID := "00000000-0000-0000-0000-000000000001",
            Token := "tok1", RedirectURL := "https://pay/1" } :=
  (CreatePremiumCheckout_idempotent utcLib
    { PaymentService := some (fixedGateway "tok1" "https://pay/1") } 1704067200 1704067260 1 2
    userA 10 []
    { OrderID := orderA, SubscriptionID := "00000000-0000-0000-0000-000000000001",
      Token := "tok1", RedirectURL := "https://pay/1" }
    (by decide) (by simp) (by decide) (by decide)).1

/-- A checkout of the user who has paid reports the conflict. -/
theorem CreatePremiumCheckout_conflict_witness :
    paidStore = [activeRow] ∧
      ∃ e', (CreatePremiumCheckout utcLib
            { PaymentService := some (fixedGateway "tok2" "https://pay/2") }
            1704067320 3 userA paidStore).result = .error (.alreadyActive e') ∧
        1706745660 ≤ e' ∧
        (∃ r ∈ paidStore, r.UserID = 10 ∧ r.Plan = .premium ∧ r.Status = .active ∧
          r.ExpiresAt = some e') ∧
        (CreatePremiumCheckout utcLib
            { PaymentService := some (fixedGateway "tok2" "https://pay/2") }
            1704067320 3 userA paidStore).db = paidStore ∧
        (CreatePremiumCheckout utcLib
            { PaymentService := some (fixedGateway "tok2" "https://pay/2") }
            1704067320 3 userA paidStore).calls = [] :=
  ⟨by decide,
    CreatePremiumCheckout_conflict utcLib (fixedGateway "tok2" "https://pay/2") 1704067260
      1704067320 3 userA 10 paidStore activeRow 1706745660
      (Reachable.notification 1704067260 orderA "settlement"
        (Reachable.checkout { PaymentService := some (fixedGateway "tok1" "https://pay/1") }
          1704067200 1 userA Reachable.empty (by decide))
        (by decide))
      (by decide) (by decide) (by decide) (by decide) (by decide) (by decide) (by decide)⟩

/-- The purchase scenario from the empty table, with gateway answer `tok1`, `https://pay/1`. -/
theorem purchase_scenario_witness :
    GetSubscriptionForUser utcLib 1704067320 userA
        (HandlePaymentNotification utcLib 1704067260 (generateSubscriptionOrderID utcLib 1704067200 10)
          "capture"
          (CreatePremiumCheckout utcLib
            { PaymentService := some (fixedGateway "tok1" "https://pay/1") }
            1704067200 1 userA []).db).2 =
      (.ok { Plan := .premium, Status := .active, Price := 20000,
             OrderID := generateSubscriptionOrderID utcLib 1704067200 10, PaymentToken := "tok1",
             PaymentRedirectURL := "https://pay/1", StartsAt := some 1704067260,
             ExpiresAt := some (utcLib.addDate 1704067260 0 1 0), ChatLimitPerDay := none },
        [] ++ [{ ID := 1, UserID := 10, Plan := .premium, Status := .active,
                 OrderID := generateSubscriptionOrderID utcLib 1704067200 10, Price := 20000,
                 PaymentToken := "tok1", PaymentRedirectURL := "https://pay/1",
                 StartsAt := some 1704067260,
                 ExpiresAt := some (utcLib.addDate 1704067260 0 1 0),
                 CreatedAt := 1704067200 }]) :=
  (purchase_scenario utcLib (fixedGateway "tok1" "https://pay/1") 1704067200 1704067260
    1704067320 1 userA 10 [] "tok1" "https://pay/1" (by decide) (by simp) (by simp) rfl
    (by decide) (by decide)).2.2.2.2

/-- The status query on the empty table returns the free view. -/
theorem GetSubscriptionForUser_no_rows_witness :
    GetSubscriptionForUser utcLib 1704067200 userA [] =
      (.ok { Plan := .free, Status := .active, Price := 0, OrderID := "", PaymentToken := "",
             PaymentRedirectURL := "", StartsAt := none, ExpiresAt := none,
             ChatLimitPerDay := some 30 }, []) :=
  (GetSubscriptionForUser_no_rows utcLib 1704067200 userA []).1 10 (by decide) (by simp)

/-- The status query of a user whose only row is canceled. -/
theorem GetSubscriptionForUser_view_witness :
    ∃ v, (GetSubscriptionForUser utcLib 1704067320 userA [canceledRow]).1 = .ok v ∧
      v.Status = canceledRow.Status ∧ v.OrderID = canceledRow.OrderID ∧
      v.PaymentToken = canceledRow.PaymentToken ∧
      v.PaymentRedirectURL = canceledRow.PaymentRedirectURL ∧
      v.StartsAt = canceledRow.StartsAt ∧ v.ExpiresAt = canceledRow.ExpiresAt ∧
      v.Plan = (if canceledRow.Plan = .premium ∧ canceledRow.Status ≠ .active then .free
        else canceledRow.Plan) ∧
      (v.Plan = .free → v.ChatLimitPerDay = some 30) ∧
      (v.Plan ≠ .free → v.ChatLimitPerDay = none) ∧
      (v.Plan = .premium → 0 < canceledRow.Price → v.Price = canceledRow.Price) ∧
      (v.Plan = .premium → canceledRow.Price ≤ 0 → v.Price = 20000) ∧
      (v.Plan = .free → v.Price = 0) :=
  GetSubscriptionForUser_view utcLib 1704067320 userA [canceledRow] 10 canceledRow (by decide)
    (by decide)

end HandBackend
